import Mathlib

/-!
# Verification of the DeepSite relay server (`src/server.js`)

A shallow embedding of the three cores of `server.js`:

* the credential failover prober `getWorkingClient` (lines 207–221),
* the streaming relay loop of the `/api/ask-ai` route (lines 251–261)
  together with its error handling (lines 262–272), and
* the `/api/deploy` publish pipeline (lines 97–175).

JavaScript strings are modelled by `String`; an optional request field is an
`Option String`, and JavaScript truthiness of such a field (`undefined`,
`null` and `""` are falsy) is `jsTruthy`.  Remote calls (`whoAmI`,
`createRepo`, `uploadFiles`, the chat completion stream) are modelled by
parameters and by an explicit description of the upstream stream; the
handlers are rendered as pure functions returning the observable effects
(response sent, files uploaded, repo created, fragments written).
-/

namespace DeepSite

set_option maxRecDepth 8000

/-- JavaScript truthiness of an optional string field: absent (`none`) and
the empty string are falsy, every other string is truthy. -/
def jsTruthy : Option String → Bool
  | none => false
  | some s => !(s == "")

/-! ## Failover prober (`getWorkingClient`, server.js lines 207–221) -/

/-- An OpenAI client as built by `createOpenAIClient` (server.js line 200):
it is bound to exactly one API key, `openRouterKeys[apiKeyIndex]`. -/
structure Client where
  apiKey : String
deriving DecidableEq

/-- The error message thrown at server.js line 220 when no key works. -/
def noKeyMsg : String := "No available OpenRouter API key."

/-- Embedding of `getWorkingClient` (server.js lines 207–221).  `probe k`
is the outcome of the liveness call `client.models.list()` made with key
`k`.  The function scans the keys in order; on the first key whose probe
succeeds it returns the client bound to that key, otherwise it throws
`noKeyMsg`.  The second component of a successful result records, in
order, every key that was probed (instrumentation: the source performs one
`models.list()` call per loop iteration until it returns). -/
def getWorkingClient (probe : String → Bool) : List String → Except String (Client × List String)
  | [] => .error noKeyMsg
  | k :: ks =>
    if probe k then .ok (⟨k⟩, [k])
    else
      match getWorkingClient probe ks with
      | .ok (c, probed) => .ok (c, k :: probed)
      | .error e => .error e

/-! ## Chat message construction (server.js lines 230–243) -/

/-- One chat message of the `messages` array. -/
structure Message where
  role : String
  content : String
deriving DecidableEq

/-- The fixed system instruction (server.js lines 232–235). -/
def systemInstruction : String :=
  "ONLY USE HTML, CSS AND JAVASCRIPT. If you want to use ICON make sure to import the library first. Try to create the best UI possible by using only HTML, CSS and JAVASCRIPT. Also, try to ellaborate as much as you can, to create something unique. ALWAYS GIVE THE RESPONSE INTO A SINGLE HTML FILE"

/-- Embedding of the `messages` array literal (server.js lines 230–243):
system instruction, then `previousPrompt` as a user turn when truthy, then
the current `html` as an assistant turn when truthy, then the new `prompt`
as the final user turn. -/
def buildMessages (previousPrompt html : Option String) (prompt : String) : List Message :=
  ⟨"system", systemInstruction⟩ ::
    ((if jsTruthy previousPrompt then [⟨"user", previousPrompt.getD ""⟩] else []) ++
      (if jsTruthy html then
        [⟨"assistant", "The current code is: " ++ html.getD "" ++ "."⟩]
      else []) ++
      [⟨"user", prompt⟩])

/-! ## Substring machinery (JS `String.prototype.includes` / `replace`) -/

/-- Split `l` at the first occurrence of `pat`: `some (pre, post)` with
`l = pre ++ pat ++ post` when `pat` occurs in `l`, `none` otherwise
(for nonempty `pat`).  This is the search underlying both
`completeResponse.includes("</html>")` and `html.replace(/<\/body>/, …)`. -/
def splitFirst (pat : List Char) : List Char → Option (List Char × List Char)
  | [] => none
  | c :: cs =>
    if pat.isPrefixOf (c :: cs) then some ([], (c :: cs).drop pat.length)
    else
      match splitFirst pat cs with
      | some (pre, post) => some (c :: pre, post)
      | none => none

/-- JS `s.includes(pat)`: substring containment. -/
def containsSub (s pat : String) : Bool := (splitFirst pat.data s.data).isSome

/-- JS `s.replace(pat, repl)` for a non-global pattern: replace the first
occurrence of `pat` in `s` by `repl`; `s` unchanged when `pat` does not
occur. -/
def replaceFirstStr (s pat repl : String) : String :=
  match splitFirst pat.data s.data with
  | some (pre, post) => String.mk pre ++ repl ++ String.mk post
  | none => s

/-! ## Streaming relay loop (server.js lines 251–261) -/

/-- The early-stop marker checked at server.js line 256. -/
def htmlClose : String := "</html>"

/-- Embedding of the `for await (const chunk of stream)` loop (server.js
lines 251–259) run from buffer `buffer`: each incoming fragment is written
to the response (`res.write(content)`), appended to `completeResponse`,
and then the buffer is tested for `"</html>"`; on success the loop breaks.
Returns the list of fragments written, in order, and the final buffer. -/
def relayLoop (buffer : String) : List String → List String × String
  | [] => ([], buffer)
  | c :: cs =>
    let buffer' := buffer ++ c
    if containsSub buffer' htmlClose then ([c], buffer')
    else
      let r := relayLoop buffer' cs
      (c :: r.1, r.2)

/-- Concatenation of a list of fragments (the value of `completeResponse`
after appending each of them in order). -/
def strJoin : List String → String
  | [] => ""
  | s :: ss => s ++ strJoin ss

/-! ## The `/api/ask-ai` route (server.js lines 177–273) -/

/-- The message of the structured 500 failure sent at server.js
lines 265–268 when the catch block runs before any output was written. -/
def tokenLimitMsg : String :=
  "You probably reached the MAX_TOKENS limit, context is too long. You can start a new conversation by refreshing the page."

/-- Behaviour of the upstream `openai.chat.completions.create` call for one
request: either the call itself throws, or it yields the given fragments
(each already coalesced by `chunk.choices[0]?.delta?.content || ""`) and
afterwards, when the relay is still consuming, either ends cleanly or
throws (`failsAfter`). -/
inductive Upstream where
  | createFails : Upstream
  | stream (chunks : List String) (failsAfter : Bool) : Upstream

/-- Body of a POST `/api/ask-ai` request (server.js line 178). -/
structure AskAiRequest where
  prompt : Option String
  html : Option String
  previousPrompt : Option String

/-- Observable outcome of one `/api/ask-ai` request:
`invalidRequest` is the 400 of lines 180–183; `errorResponse` is a
structured JSON failure sent when no headers had been flushed
(lines 264–268); `streamed frags` means exactly `frags` were written to
the response, in order, and the channel was then ended with `res.end()`
(line 261 or line 270) with no structured error. -/
inductive AskAiResult where
  | invalidRequest : AskAiResult
  | errorResponse (status : Nat) (message : String) : AskAiResult
  | streamed (fragments : List String) : AskAiResult
deriving DecidableEq

/-- Embedding of the `/api/ask-ai` handler (server.js lines 177–273).
`keys` is `openRouterKeys`, `probe` the outcome of `models.list()` per
key, `up` the behaviour of the chat-completion call.  Headers are flushed
by the first `res.write`, so a failure with no fragment yet written is
reported as the structured 500 carrying `tokenLimitMsg`, while a failure
after at least one write only ends the channel. -/
def askAi (keys : List String) (probe : String → Bool) (up : Upstream)
    (req : AskAiRequest) : AskAiResult :=
  if !jsTruthy req.prompt then .invalidRequest
  else
    match getWorkingClient probe keys with
    | .error _ => .errorResponse 500 tokenLimitMsg
    | .ok _ =>
      match up with
      | .createFails => .errorResponse 500 tokenLimitMsg
      | .stream chunks failsAfter =>
        let r := relayLoop "" chunks
        if containsSub r.2 htmlClose then .streamed r.1
        else if failsAfter then
          if chunks.isEmpty then .errorResponse 500 tokenLimitMsg
          else .streamed r.1
        else .streamed r.1

/-- `MAX_REQUESTS_PER_IP` (server.js line 27). -/
def maxRequestsPerIp : Nat := 4

/-- Embedding of the `/api/ask-ai` route together with its effect on the
module-level `ipAddresses` map (server.js line 18), modelled as an
association list from caller network identity to request count.  The
handler body (lines 177–273) never reads or writes `ipAddresses`, so the
route leaves the counter exactly as it was and its response does not
depend on it. -/
def askAiRoute (ipAddresses : List (String × Nat)) (ip : String)
    (keys : List String) (probe : String → Bool) (up : Upstream)
    (req : AskAiRequest) : AskAiResult × List (String × Nat) :=
  (askAi keys probe up req, ipAddresses)

/-! ## The `/api/deploy` route (server.js lines 97–175) -/

/-- `[a-z0-9]`: the characters the slugification regex keeps. -/
def isAlnumLower (c : Char) : Bool :=
  ('a' ≤ c && c ≤ 'z') || ('0' ≤ c && c ≤ '9')

/-- The regex replacement `.replace(/[^a-z0-9]+/g, "-")`: every maximal
run of characters outside `[a-z0-9]` becomes a single `'-'`.  `inSep`
records whether the previous character belonged to such a run. -/
def collapseRuns (inSep : Bool) : List Char → List Char
  | [] => []
  | c :: cs =>
    if isAlnumLower c then c :: collapseRuns false cs
    else if inSep then collapseRuns true cs
    else '-' :: collapseRuns true cs

/-- JS `.split("-")` on a list of characters: the (possibly empty) pieces
between the dashes. -/
def splitDash : List Char → List (List Char)
  | [] => [[]]
  | c :: cs =>
    if c = '-' then [] :: splitDash cs
    else
      match splitDash cs with
      | [] => [[c]]
      | p :: ps => (c :: p) :: ps

/-- JS `.join("-")`. -/
def joinDash : List (List Char) → List Char
  | [] => []
  | [p] => p
  | p :: q :: ps => p ++ '-' :: joinDash (q :: ps)

/-- Embedding of the slug computation of server.js lines 129–135:
`title.toLowerCase().replace(/[^a-z0-9]+/g, "-").split("-")
.filter(Boolean).join("-").slice(0, 96)`.
(`Char.toLower` models `toLowerCase`; they agree on ASCII, and after the
replacement every character is in `[a-z0-9-]`.) -/
def slugify (title : String) : String :=
  let lowered := title.data.map Char.toLower
  let collapsed := collapseRuns false lowered
  let parts := (splitDash collapsed).filter (fun p => p ≠ [])
  String.mk ((joinDash parts).take 96)

/-- The closing tag matched by `html.replace(/<\/body>/, …)` at
server.js line 110. -/
def bodyClose : String := "</body>"

/-- The fixed attribution footer of server.js line 111 (the replacement
string there is this snippet followed by `"</body>"`). -/
def attributionSnippet : String :=
  "<p style=\"border-radius: 8px; text-align: center; font-size: 12px; color: #fff; margin-top: 16px;position: fixed; left: 8px; bottom: 8px; z-index: 10; background: rgba(0, 0, 0, 0.8); padding: 4px 8px;\">Made with <a href=\"https://enzostvs-deepsite.hf.space\" style=\"color: #fff;\" target=\"_blank\" >DeepSite</a> <img src=\"https://enzostvs-deepsite.hf.space/logo.svg\" alt=\"DeepSite Logo\" style=\"width: 16px; height: 16px; vertical-align: middle;\"></p>"

/-- The README written on the create branch (server.js lines 143–154):
metadata header with the slug as title plus the static-hosting
declaration (`sdk: static`). -/
def readme (newTitle : String) : String :=
  "---\ntitle: " ++ newTitle ++
    "\nemoji: 🐳\ncolorFrom: blue\ncolorTo: blue\nsdk: static\npinned: false\ntags:\n  - deepsite\n---\n\nCheck out the configuration reference at https://huggingface.co/docs/hub/spaces-config-reference"

/-- Body of a POST `/api/deploy` request (server.js line 98). -/
structure DeployRequest where
  html : Option String
  title : Option String
  path : Option String

/-- One uploaded blob (name plus content). -/
structure UploadedFile where
  name : String
  content : String
deriving DecidableEq

/-- Observable effects of a successful `/api/deploy` request:
`createdRepo` is `some repoId` exactly when `createRepo` was called with
that id; `uploadedFiles` are the blobs passed to `uploadFiles`, in order;
`responsePath` is the `path` field of the 200 response (line 168). -/
structure DeployEffects where
  createdRepo : Option String
  uploadedFiles : List UploadedFile
  responsePath : String
deriving DecidableEq

/-- Embedding of the `/api/deploy` handler body (server.js lines 97–175),
after the `checkUser` session gate, with the remote calls succeeding;
`username` is the name returned by `whoAmI` for the caller's token.
`none` is the 400 "Missing required fields" response of lines 99–104;
otherwise the attribution snippet is injected before the first
`</body>` when `path` is falsy (lines 108–113), the create branch of
lines 127–155 runs when `!path || path === ""`, and the files are
uploaded (index.html first, then the README when one was built). -/
def deploy (username : String) (req : DeployRequest) : Option DeployEffects :=
  if !jsTruthy req.html || !jsTruthy req.title then none
  else
    let html := req.html.getD ""
    let newHtml :=
      if !jsTruthy req.path then
        replaceFirstStr html bodyClose (attributionSnippet ++ bodyClose)
      else html
    let repoName := req.path.getD ""
    if !jsTruthy req.path || req.path == some "" then
      let newTitle := slugify (req.title.getD "")
      let repoId := username ++ "/" ++ newTitle
      some
        { createdRepo := some repoId
          uploadedFiles := [⟨"index.html", newHtml⟩, ⟨"README.md", readme newTitle⟩]
          responsePath := repoId }
    else
      some
        { createdRepo := none
          uploadedFiles := [⟨"index.html", newHtml⟩]
          responsePath := repoName }

/-! ## Helper lemmas -/

lemma isPrefixOf_append {pat l : List Char} (l' : List Char)
    (h : pat.isPrefixOf l = true) : pat.isPrefixOf (l ++ l') = true := by
  induction pat generalizing l with
  | nil => simp [List.isPrefixOf]
  | cons a as ih =>
    cases l with
    | nil => simp [List.isPrefixOf] at h
    | cons b bs =>
      simp only [List.isPrefixOf, Bool.and_eq_true] at h ⊢
      exact ⟨h.1, ih h.2⟩

lemma isPrefixOf_exists {pat l : List Char}
    (h : pat.isPrefixOf l = true) : ∃ t, l = pat ++ t := by
  induction pat generalizing l with
  | nil => exact ⟨l, rfl⟩
  | cons a as ih =>
    cases l with
    | nil => simp [List.isPrefixOf] at h
    | cons b bs =>
      simp only [List.isPrefixOf, Bool.and_eq_true, beq_iff_eq] at h
      obtain ⟨t, ht⟩ := ih h.2
      exact ⟨t, by simp [h.1, ht]⟩

lemma splitFirst_sound {pat : List Char} :
    ∀ {l pre post : List Char}, splitFirst pat l = some (pre, post) →
      l = pre ++ pat ++ post := by
  intro l
  induction l with
  | nil => intro pre post h; simp [splitFirst] at h
  | cons c cs ih =>
    intro pre post h
    rw [splitFirst] at h
    by_cases hp : pat.isPrefixOf (c :: cs) = true
    · rw [if_pos hp] at h
      obtain ⟨t, ht⟩ := isPrefixOf_exists hp
      simp only [Option.some.injEq, Prod.mk.injEq] at h
      obtain ⟨hpre, hpost⟩ := h
      subst hpre
      rw [ht, List.drop_left] at hpost
      simp [ht, hpost]
    · rw [if_neg hp] at h
      cases hm : splitFirst pat cs with
      | none => rw [hm] at h; simp at h
      | some pr =>
        rw [hm] at h
        simp only [Option.some.injEq, Prod.mk.injEq] at h
        obtain ⟨hpre, hpost⟩ := h
        have := ih hm
        subst hpre hpost
        simp [this]

lemma splitFirst_isSome_append {pat : List Char} (l l' : List Char)
    (h : (splitFirst pat l).isSome = true) :
    (splitFirst pat (l ++ l')).isSome = true := by
  induction l with
  | nil => simp [splitFirst] at h
  | cons c cs ih =>
    rw [List.cons_append, splitFirst]
    by_cases hq : pat.isPrefixOf (c :: (cs ++ l')) = true
    · rw [if_pos hq]; simp
    · rw [if_neg hq]
      have hp : ¬ pat.isPrefixOf (c :: cs) = true := by
        intro hp
        exact hq (by simpa using isPrefixOf_append l' hp)
      rw [splitFirst, if_neg hp] at h
      have hcs : (splitFirst pat cs).isSome = true := by
        cases hm : splitFirst pat cs with
        | none => rw [hm] at h; simp at h
        | some pr => simp
      have := ih hcs
      cases hm : splitFirst pat (cs ++ l') with
      | none => rw [hm] at this; simp at this
      | some pr => simp

lemma containsSub_append {b : String} (c : String) {pat : String}
    (h : containsSub b pat = true) : containsSub (b ++ c) pat = true := by
  unfold containsSub at h ⊢
  rw [String.data_append]
  exact splitFirst_isSome_append _ _ h

lemma strAppend_assoc (a b c : String) : a ++ b ++ c = a ++ (b ++ c) := by
  apply String.ext
  simp [String.data_append]

lemma strAppend_empty_right (a : String) : a ++ "" = a := by
  apply String.ext
  simp [String.data_append]

lemma strAppend_empty_left (a : String) : "" ++ a = a := by
  apply String.ext
  simp [String.data_append]

lemma relayLoop_stop (cs₁ : List String) :
    ∀ (b c : String) (cs₂ : List String),
      containsSub (b ++ strJoin cs₁) htmlClose = false →
      containsSub (b ++ strJoin cs₁ ++ c) htmlClose = true →
      relayLoop b (cs₁ ++ c :: cs₂) = (cs₁ ++ [c], b ++ strJoin cs₁ ++ c) := by
  induction cs₁ with
  | nil =>
    intro b c cs₂ h₁ h₂
    rw [strJoin, strAppend_empty_right] at h₂
    rw [List.nil_append, relayLoop]
    simp only [if_pos h₂]
    rw [strJoin, strAppend_empty_right]
    simp
  | cons x xs ih =>
    intro b c cs₂ h₁ h₂
    rw [strJoin, ← strAppend_assoc] at h₁ h₂
    have hbx : ¬ containsSub (b ++ x) htmlClose = true := by
      intro hc
      rw [containsSub_append (strJoin xs) hc] at h₁
      exact Bool.true_eq_false ▸ h₁
    rw [List.cons_append, relayLoop]
    simp only [if_neg hbx]
    rw [ih (b ++ x) c cs₂ h₁ h₂]
    rw [strJoin, ← strAppend_assoc]
    simp

lemma getWorkingClient_ok {probe : String → Bool} {keys : List String}
    (h : ∃ k ∈ keys, probe k = true) :
    ∃ pre k post, keys = pre ++ k :: post ∧ (∀ x ∈ pre, probe x = false) ∧
      probe k = true ∧ getWorkingClient probe keys = .ok (⟨k⟩, pre ++ [k]) := by
  induction keys with
  | nil => simp at h
  | cons a as ih =>
    by_cases ha : probe a = true
    · exact ⟨[], a, as, rfl, by simp, ha, by rw [getWorkingClient, if_pos ha]; rfl⟩
    · have ha' : probe a = false := by simpa using ha
      obtain ⟨k, hk, hpk⟩ := h
      have hk' : k ∈ as := by
        rcases List.mem_cons.mp hk with h1 | h1
        · exact absurd (h1 ▸ hpk) ha
        · exact h1
      obtain ⟨pre, k', post, hsplit, hpre, hpk', hrun⟩ := ih ⟨k, hk', hpk⟩
      refine ⟨a :: pre, k', post, by simp [hsplit], ?_, hpk', ?_⟩
      · intro x hx
        rcases List.mem_cons.mp hx with h1 | h1
        · exact h1 ▸ ha'
        · exact hpre x h1
      · rw [getWorkingClient, if_neg ha, hrun]; rfl

lemma getWorkingClient_error_iff (probe : String → Bool) (keys : List String) :
    getWorkingClient probe keys = .error noKeyMsg ↔ ∀ k ∈ keys, probe k = false := by
  induction keys with
  | nil => simp [getWorkingClient]
  | cons a as ih =>
    constructor
    · intro h
      rw [getWorkingClient] at h
      by_cases ha : probe a = true
      · rw [if_pos ha] at h; simp at h
      · have ha' : probe a = false := by simpa using ha
        rw [if_neg ha] at h
        intro k hk
        rcases List.mem_cons.mp hk with h1 | h1
        · exact h1 ▸ ha'
        · cases hm : getWorkingClient probe as with
          | ok v => rw [hm] at h; cases v; simp at h
          | error e =>
            rw [hm] at h
            simp only [Except.error.injEq] at h
            exact (ih.mp (h ▸ hm)) k h1
    · intro h
      have ha := h a (by simp)
      rw [getWorkingClient, if_neg (by simp [ha])]
      rw [ih.mpr (fun k hk => h k (by simp [hk]))]

lemma data_mk (l : List Char) : (String.mk l).data = l := rfl

lemma data_empty : ("" : String).data = [] := rfl

lemma deploy_create (username html title : String) (pre post : List Char)
    (ht : title ≠ "")
    (hsplit : splitFirst bodyClose.data html.data = some (pre, post)) :
    deploy username ⟨some html, some title, none⟩ =
      some { createdRepo := some (username ++ "/" ++ slugify title)
             uploadedFiles := [⟨"index.html",
               String.mk pre ++ attributionSnippet ++ bodyClose ++ String.mk post⟩,
               ⟨"README.md", readme (slugify title)⟩]
             responsePath := username ++ "/" ++ slugify title } ∧
    html = String.mk pre ++ bodyClose ++ String.mk post := by
  have hdata := splitFirst_sound hsplit
  have hh : html ≠ "" := by
    intro e
    rw [e, data_empty] at hsplit
    simp [splitFirst] at hsplit
  have hhtml : jsTruthy (some html) = true := by simp [jsTruthy, hh]
  have htitle : jsTruthy (some title) = true := by simp [jsTruthy, ht]
  constructor
  · unfold deploy replaceFirstStr
    rw [hhtml, htitle]
    simp [jsTruthy, hsplit, strAppend_assoc]
  · apply String.ext
    rw [hdata]
    simp [String.data_append, data_mk]

lemma askAi_createFails_eval {keys : List String} {probe : String → Bool}
    {req : AskAiRequest} (hp : jsTruthy req.prompt = true)
    {c : Client} {pr : List String}
    (hrun : getWorkingClient probe keys = .ok (c, pr)) :
    askAi keys probe .createFails req = .errorResponse 500 tokenLimitMsg := by
  unfold askAi
  rw [hp, hrun]
  rfl

lemma askAi_stream_eval {keys : List String} {probe : String → Bool}
    {req : AskAiRequest} (chunks : List String) (failsAfter : Bool)
    (hp : jsTruthy req.prompt = true) {c : Client} {pr : List String}
    (hrun : getWorkingClient probe keys = .ok (c, pr)) :
    askAi keys probe (.stream chunks failsAfter) req =
      (if containsSub (relayLoop "" chunks).2 htmlClose then
        .streamed (relayLoop "" chunks).1
      else if failsAfter then
        if chunks.isEmpty then .errorResponse 500 tokenLimitMsg
        else .streamed (relayLoop "" chunks).1
      else .streamed (relayLoop "" chunks).1) := by
  unfold askAi
  rw [hp, hrun]
  rfl

lemma askAi_noKey_eval {keys : List String} {probe : String → Bool}
    {req : AskAiRequest} (up : Upstream) (hp : jsTruthy req.prompt = true)
    (hall : ∀ k ∈ keys, probe k = false) :
    askAi keys probe up req = .errorResponse 500 tokenLimitMsg := by
  unfold askAi
  rw [hp, (getWorkingClient_error_iff probe keys).mpr hall]
  rfl

/-! ## Claim theorems -/

/-- **C1.** For every credential pool in which at least one credential
passes the liveness probe, `getWorkingClient` returns a client bound to
the first credential (in pool order) whose probe succeeds, and performs no
probe on any credential after that one: the keys probed are exactly the
failing ones before it together with that first passing key. -/
theorem C1_failover_returns_first_passing (probe : String → Bool) (keys : List String)
    (h : ∃ k ∈ keys, probe k = true) :
    ∃ pre k post, keys = pre ++ k :: post ∧ (∀ x ∈ pre, probe x = false) ∧
      probe k = true ∧
      getWorkingClient probe keys = .ok (⟨k⟩, pre ++ [k]) :=
  getWorkingClient_ok h

/-- Witness for C1 on the pool `["bad", "good", "later"]` where exactly
`"good"` passes the probe. -/
theorem C1_witness :
    (∃ k ∈ ["bad", "good", "later"], (fun s => s == "good") k = true) ∧
    (∃ pre k post, ["bad", "good", "later"] = pre ++ k :: post ∧
      (∀ x ∈ pre, (fun s => s == "good") x = false) ∧
      (fun s => s == "good") k = true ∧
      getWorkingClient (fun s => s == "good") ["bad", "good", "later"] =
        .ok (⟨k⟩, pre ++ [k])) :=
  ⟨⟨"good", by simp, by decide⟩,
    C1_failover_returns_first_passing (fun s => s == "good") ["bad", "good", "later"]
      ⟨"good", by simp, by decide⟩⟩

/-- **C2.** In the streaming relay, once appending a fragment makes the
stream buffer contain `"</html>"` for the first time, that fragment is the
last one emitted (the check runs after every append), and the `/api/ask-ai`
response is the stream of exactly those fragments followed by the end of
the channel, whatever fragments the upstream would still deliver. -/
theorem C2_relay_stops_at_html_close (keys : List String) (probe : String → Bool)
    (req : AskAiRequest) (cs₁ : List String) (c : String) (cs₂ : List String)
    (failsAfter : Bool)
    (hp : jsTruthy req.prompt = true) (hkey : ∃ k ∈ keys, probe k = true)
    (h₁ : containsSub (strJoin cs₁) htmlClose = false)
    (h₂ : containsSub (strJoin cs₁ ++ c) htmlClose = true) :
    relayLoop "" (cs₁ ++ c :: cs₂) = (cs₁ ++ [c], strJoin cs₁ ++ c) ∧
    askAi keys probe (.stream (cs₁ ++ c :: cs₂) failsAfter) req =
      .streamed (cs₁ ++ [c]) := by
  have h₁' : containsSub ("" ++ strJoin cs₁) htmlClose = false := by
    rw [strAppend_empty_left]; exact h₁
  have h₂' : containsSub ("" ++ strJoin cs₁ ++ c) htmlClose = true := by
    rw [strAppend_empty_left]; exact h₂
  have hloop := relayLoop_stop cs₁ "" c cs₂ h₁' h₂'
  rw [strAppend_empty_left] at hloop
  refine ⟨hloop, ?_⟩
  obtain ⟨pre, k, post, hsplit, hpre, hpk, hrun⟩ := getWorkingClient_ok hkey
  rw [askAi_stream_eval (cs₁ ++ c :: cs₂) failsAfter hp hrun]
  simp [hloop, h₂]

/-- Witness for C2: the fragments `["<html>a", "</ht", "ml>", "zzz"]`
stop being consumed right after `"ml>"` completes the closing tag. -/
theorem C2_witness :
    containsSub (strJoin ["<html>a", "</ht"]) htmlClose = false ∧
    askAi ["k"] (fun _ => true)
        (.stream (["<html>a", "</ht"] ++ "ml>" :: ["zzz"]) false)
        ⟨some "p", none, none⟩ =
      .streamed (["<html>a", "</ht"] ++ ["ml>"]) :=
  ⟨rfl,
    (C2_relay_stops_at_html_close ["k"] (fun _ => true) ⟨some "p", none, none⟩
      ["<html>a", "</ht"] "ml>" ["zzz"] false rfl ⟨"k", by simp, rfl⟩ rfl rfl).2⟩

/-- **C3.** The chat message list is built in the order system instruction,
`previousPrompt` as a user turn when present, current `html` as an
assistant turn when present, then the new prompt as a user turn: with both
optional fields absent it has exactly the two entries system and prompt,
with both present (non-empty) exactly the four entries in that order. -/
theorem C3_message_order (p h prompt : String) (hp : p ≠ "") (hh : h ≠ "") :
    buildMessages none none prompt =
      [⟨"system", systemInstruction⟩, ⟨"user", prompt⟩] ∧
    buildMessages (some p) (some h) prompt =
      [⟨"system", systemInstruction⟩, ⟨"user", p⟩,
        ⟨"assistant", "The current code is: " ++ h ++ "."⟩, ⟨"user", prompt⟩] := by
  constructor
  · simp [buildMessages, jsTruthy]
  · simp [buildMessages, jsTruthy, hp, hh]

/-- Witness for C3 at a concrete previous prompt, html and prompt. -/
theorem C3_witness :
    buildMessages none none "make a page" =
      [⟨"system", systemInstruction⟩, ⟨"user", "make a page"⟩] ∧
    buildMessages (some "old ask") (some "<p>x</p>") "make a page" =
      [⟨"system", systemInstruction⟩, ⟨"user", "old ask"⟩,
        ⟨"assistant", "The current code is: " ++ "<p>x</p>" ++ "."⟩,
        ⟨"user", "make a page"⟩] :=
  C3_message_order "old ask" "<p>x</p>" "make a page" (by decide) (by decide)

/-- **C4.** On the publish create branch (no `path` supplied), the title is
slugified (lowercase, runs of non-alphanumerics collapsed to `'-'`,
separators trimmed, truncated to 96; in particular
`"My Cool App!!" ↦ "my-cool-app"`), the repo id is `{username}/{slug}`,
the uploaded HTML is the input with the attribution snippet injected
immediately before the (first) closing body tag, and the README descriptor
is uploaded alongside it. -/
theorem C4_deploy_create_branch (username html title : String) (pre post : List Char)
    (ht : title ≠ "")
    (hsplit : splitFirst bodyClose.data html.data = some (pre, post)) :
    slugify "My Cool App!!" = "my-cool-app" ∧
    html = String.mk pre ++ bodyClose ++ String.mk post ∧
    deploy username ⟨some html, some title, none⟩ =
      some { createdRepo := some (username ++ "/" ++ slugify title)
             uploadedFiles := [⟨"index.html",
               String.mk pre ++ attributionSnippet ++ bodyClose ++ String.mk post⟩,
               ⟨"README.md", readme (slugify title)⟩]
             responsePath := username ++ "/" ++ slugify title } :=
  ⟨by rfl, (deploy_create username html title pre post ht hsplit).2,
    (deploy_create username html title pre post ht hsplit).1⟩

/-- Witness for C4 at the spec's example title. -/
theorem C4_witness :
    splitFirst bodyClose.data ("<html><body>hi</body></html>" : String).data =
      some (("<html><body>hi" : String).data, ("</html>" : String).data) ∧
    deploy "alice" ⟨some "<html><body>hi</body></html>", some "My Cool App!!", none⟩ =
      some { createdRepo := some ("alice" ++ "/" ++ slugify "My Cool App!!")
             uploadedFiles := [⟨"index.html",
               String.mk ("<html><body>hi" : String).data ++ attributionSnippet ++
                 bodyClose ++ String.mk ("</html>" : String).data⟩,
               ⟨"README.md", readme (slugify "My Cool App!!")⟩]
             responsePath := "alice" ++ "/" ++ slugify "My Cool App!!" } :=
  ⟨rfl,
    (C4_deploy_create_branch "alice" "<html><body>hi</body></html>" "My Cool App!!"
      ("<html><body>hi" : String).data ("</html>" : String).data
      (by decide) rfl).2.2⟩

/-- **C5.** On the publish overwrite branch (a non-empty `path` supplied),
the uploaded HTML is byte-identical to the input (no attribution
injection), no README descriptor is created or uploaded, no repo is
created, and the returned path is the supplied identifier. -/
theorem C5_deploy_overwrite_branch (username html title pid : String)
    (hh : html ≠ "") (ht : title ≠ "") (hp : pid ≠ "") :
    deploy username ⟨some html, some title, some pid⟩ =
      some { createdRepo := none
             uploadedFiles := [⟨"index.html", html⟩]
             responsePath := pid } := by
  have hhtml : jsTruthy (some html) = true := by simp [jsTruthy, hh]
  have htitle : jsTruthy (some title) = true := by simp [jsTruthy, ht]
  have hpid : jsTruthy (some pid) = true := by simp [jsTruthy, hp]
  unfold deploy
  rw [hhtml, htitle, hpid]
  simp [hp]

/-- Witness for C5 at a concrete request. -/
theorem C5_witness :
    ("<body>x</body>" : String) ≠ "" ∧
    deploy "alice" ⟨some "<body>x</body>", some "T", some "alice/site"⟩ =
      some { createdRepo := none
             uploadedFiles := [⟨"index.html", "<body>x</body>"⟩]
             responsePath := "alice/site" } :=
  ⟨by decide,
    C5_deploy_overwrite_branch "alice" "<body>x</body>" "T" "alice/site"
      (by decide) (by decide) (by decide)⟩

/-- **C6.** The failover prober fails with the `NoAvailableCredential`
error exactly when every credential of the pool (in particular of the
empty pool) fails its probe, and in that case the whole generation request
is answered with the structured 500 failure regardless of what the
upstream would do — a hard failure with no retry beyond the pool. -/
theorem C6_no_available_credential (keys : List String) (probe : String → Bool) :
    (getWorkingClient probe keys = .error noKeyMsg ↔ ∀ k ∈ keys, probe k = false) ∧
    ∀ (up : Upstream) (req : AskAiRequest), jsTruthy req.prompt = true →
      (∀ k ∈ keys, probe k = false) →
      askAi keys probe up req = .errorResponse 500 tokenLimitMsg := by
  refine ⟨getWorkingClient_error_iff probe keys, ?_⟩
  intro up req hp hall
  exact askAi_noKey_eval up hp hall

/-- Witness for C6: a two-key pool where both probes fail. -/
theorem C6_witness :
    getWorkingClient (fun _ => false) ["k1", "k2"] = .error noKeyMsg ∧
    askAi ["k1", "k2"] (fun _ => false) .createFails ⟨some "p", none, none⟩ =
      .errorResponse 500 tokenLimitMsg :=
  ⟨(C6_no_available_credential ["k1", "k2"] (fun _ => false)).1.mpr (by simp),
    (C6_no_available_credential ["k1", "k2"] (fun _ => false)).2 .createFails
      ⟨some "p", none, none⟩ rfl (by simp)⟩

/-- **C7.** With a working credential, an upstream failure before any
fragment was written (the create call throws, or the stream throws before
yielding anything) is answered with the structured 500 carrying the
token-limit hint — every such failure maps to that one message — while a
failure after at least one fragment was written yields no structured
error: the fragments already written are followed by a clean end of the
channel. -/
theorem C7_upstream_failure_mapping (keys : List String) (probe : String → Bool)
    (req : AskAiRequest) (chunks : List String)
    (hp : jsTruthy req.prompt = true) (hkey : ∃ k ∈ keys, probe k = true) :
    askAi keys probe .createFails req = .errorResponse 500 tokenLimitMsg ∧
    askAi keys probe (.stream [] true) req = .errorResponse 500 tokenLimitMsg ∧
    (chunks ≠ [] →
      ∃ frags, askAi keys probe (.stream chunks true) req = .streamed frags) := by
  obtain ⟨pre, k, post, hsplit, hpre, hpk, hrun⟩ := getWorkingClient_ok hkey
  refine ⟨askAi_createFails_eval hp hrun, ?_, ?_⟩
  · rw [askAi_stream_eval [] true hp hrun]
    rfl
  · intro hc
    rw [askAi_stream_eval chunks true hp hrun]
    by_cases hcl : containsSub (relayLoop "" chunks).2 htmlClose = true
    · exact ⟨(relayLoop "" chunks).1, by rw [if_pos hcl]⟩
    · refine ⟨(relayLoop "" chunks).1, ?_⟩
      rw [if_neg hcl]
      cases chunks with
      | nil => exact absurd rfl hc
      | cons x xs => rfl

/-- Witness for C7: pre-first-byte failures give the structured hint,
a post-first-byte failure gives a plain stream end. -/
theorem C7_witness :
    askAi ["k"] (fun _ => true) .createFails ⟨some "p", none, none⟩ =
      .errorResponse 500 tokenLimitMsg ∧
    askAi ["k"] (fun _ => true) (.stream [] true) ⟨some "p", none, none⟩ =
      .errorResponse 500 tokenLimitMsg ∧
    (∃ frags, askAi ["k"] (fun _ => true) (.stream ["<p>"] true)
        ⟨some "p", none, none⟩ = .streamed frags) :=
  have h := C7_upstream_failure_mapping ["k"] (fun _ => true)
    ⟨some "p", none, none⟩ ["<p>"] rfl ⟨"k", by simp, rfl⟩
  ⟨h.1, h.2.1, h.2.2 (by simp)⟩

/-- **C8 counterexample.** The claim predicts that a publish request
supplying a target identifier together with non-empty html is not rejected
when `title` is absent; but the handler's precondition check
(`if (!html || !title)`, server.js line 99) runs before the branch on
`path`, so exactly such a request is answered with the 400
"Missing required fields" response (modelled by `none`). -/
theorem C8_counterexample :
    deploy "alice" ⟨some "<html></html>", none, some "alice/site"⟩ = none := rfl

/-- **C8 (amended).** `title` is required on every publish request, not
only when creating: whenever `title` is absent or empty the handler
responds InvalidRequest, even when a target identifier is supplied. -/
theorem C8_title_required_always (username : String) (req : DeployRequest)
    (ht : jsTruthy req.title = false) : deploy username req = none := by
  unfold deploy
  rw [ht]
  simp

/-- Witness for the amended C8 at an overwrite-shaped request with an
empty title. -/
theorem C8_witness :
    jsTruthy (some "") = false ∧
    deploy "bob" ⟨some "<html></html>", some "", some "bob/site"⟩ = none :=
  ⟨rfl, C8_title_required_always "bob" ⟨some "<html></html>", some "", some "bob/site"⟩ rfl⟩

/-- **C9 counterexample.** The claim predicts that the generate route
creates a counter entry on the first request from an identity and does not
serve requests beyond the limit; but the handler never touches
`ipAddresses`: a first request from `"203.0.113.7"` leaves the counter
empty, and a request from an identity already recorded with count 100
(far beyond `maxRequestsPerIp = 4`) is still served the full generation. -/
theorem C9_counterexample :
    askAiRoute [] "203.0.113.7" ["k"] (fun _ => true)
        (.stream ["<html></html>"] false) ⟨some "p", none, none⟩ =
      (.streamed ["<html></html>"], []) ∧
    askAiRoute [("203.0.113.7", 100)] "203.0.113.7" ["k"] (fun _ => true)
        (.stream ["<html></html>"] false) ⟨some "p", none, none⟩ =
      (.streamed ["<html></html>"], [("203.0.113.7", 100)]) ∧
    maxRequestsPerIp < 100 :=
  ⟨rfl, rfl, by decide⟩

/-- **C9 (amended).** The generate route performs no rate limiting: it
leaves the `ipAddresses` counter exactly as it was (no entry created or
incremented) and its response is independent of the counter's contents
and of the caller's identity. -/
theorem C9_no_rate_limiting (m m' : List (String × Nat)) (ip ip' : String)
    (keys : List String) (probe : String → Bool) (up : Upstream)
    (req : AskAiRequest) :
    (askAiRoute m ip keys probe up req).2 = m ∧
    (askAiRoute m ip keys probe up req).1 = (askAiRoute m' ip' keys probe up req).1 :=
  ⟨rfl, rfl⟩

/-- **C10.** A publish request whose target identifier is the empty string
behaves exactly like one with the identifier absent: the create branch is
taken (attribution snippet injected before the closing body tag, repo
created under `{username}/{slug}`, README descriptor uploaded), so the
create-vs-overwrite decision is made on falsiness of the identifier. -/
theorem C10_empty_identifier_creates (username html title : String)
    (pre post : List Char) (ht : title ≠ "")
    (hsplit : splitFirst bodyClose.data html.data = some (pre, post)) :
    (∀ (h t : Option String),
      deploy username ⟨h, t, some ""⟩ = deploy username ⟨h, t, none⟩) ∧
    deploy username ⟨some html, some title, some ""⟩ =
      some { createdRepo := some (username ++ "/" ++ slugify title)
             uploadedFiles := [⟨"index.html",
               String.mk pre ++ attributionSnippet ++ bodyClose ++ String.mk post⟩,
               ⟨"README.md", readme (slugify title)⟩]
             responsePath := username ++ "/" ++ slugify title } :=
  ⟨fun _ _ => rfl, (deploy_create username html title pre post ht hsplit).1⟩

/-- Witness for C10 at a concrete request with an empty identifier. -/
theorem C10_witness :
    deploy "carol" ⟨some "<body>y</body>", some "A B", some ""⟩ =
      deploy "carol" ⟨some "<body>y</body>", some "A B", none⟩ ∧
    deploy "carol" ⟨some "<body>y</body>", some "A B", some ""⟩ =
      some { createdRepo := some ("carol" ++ "/" ++ slugify "A B")
             uploadedFiles := [⟨"index.html",
               String.mk ("<body>y" : String).data ++ attributionSnippet ++
                 bodyClose ++ String.mk ("" : String).data⟩,
               ⟨"README.md", readme (slugify "A B")⟩]
             responsePath := "carol" ++ "/" ++ slugify "A B" } :=
  have h := C10_empty_identifier_creates "carol" "<body>y</body>" "A B"
    ("<body>y" : String).data ("" : String).data (by decide) rfl
  ⟨h.1 (some "<body>y</body>") (some "A B"), h.2⟩

end DeepSite
